import Mathlib

/-!
Verification of the model-based reflex agent (reflexagent.py).

The embedding keeps the source's shape: `Rule`, `rule_match`, `update_state`
and `ModelBasedReflexAgent.perceive` mirror the generic core; the Python
object mutation in `perceive` becomes explicit state passing (the call
returns the chosen action together with the updated agent record).  The
vacuum-world instantiation models a Python dict of dirt flags as an
association list with dict-style get/set, and a belief-state dict with the
two keys the program ever touches (`loc`, `dirty`) as a record of optional
fields.  Fallible collaborators (claim on exception propagation) are
embedded with `Except`.
-/

namespace ReflexAgent

/-- `Rule`: an immutable condition-action pair (reflexagent.py lines 6-10). -/
structure Rule (σ α : Type) where
  condition : σ → Bool
  action : α

/-- `rule_match` (lines 12-16): scan the rules in order, return the first
whose condition holds on the state, else `none`. -/
def rule_match {σ α : Type} (state : σ) (rules : List (Rule σ α)) : Option (Rule σ α) :=
  match rules with
  | [] => none
  | r :: rest => if r.condition state then some r else rule_match state rest

/-- `update_state` (lines 18-33): predict with the transition model, then
correct with the sensor model. -/
def update_state {σ π α : Type} (state : σ) (last_action : α) (percept : π)
    (transition_model : σ → α → σ) (sensor_model : π → σ → σ) : σ :=
  let predicted := transition_model state last_action
  let corrected := sensor_model percept predicted
  corrected

/-- `ModelBasedReflexAgent` (lines 35-49): the agent's fields.  `action`
holds the last action taken, as in the source. -/
structure ModelBasedReflexAgent (σ π α : Type) where
  transition_model : σ → α → σ
  sensor_model : π → σ → σ
  rules : List (Rule σ α)
  state : σ
  action : α
  no_op : α

/-- `ModelBasedReflexAgent.__init__` (lines 36-49): `state` defaults to the
empty belief state when no initial state is supplied, `action` starts at the
configured no-op. -/
def mkAgent {σ π α : Type} (transition_model : σ → α → σ) (sensor_model : π → σ → σ)
    (rules : List (Rule σ α)) (initial_state : Option σ) (emptyState : σ) (no_op : α) :
    ModelBasedReflexAgent σ π α :=
  { transition_model := transition_model
    sensor_model := sensor_model
    rules := rules
    state := initial_state.getD emptyState
    action := no_op
    no_op := no_op }

/-- The action-selection expression `r.action if r else self.no_op`
(line 59). -/
def chosen_action {σ α : Type} (r : Option (Rule σ α)) (no_op : α) : α :=
  match r with
  | some rule => rule.action
  | none => no_op

/-- `perceive` (lines 51-60): update the belief state, match the rules,
store and return the chosen action (the no-op when nothing matched). -/
def perceive {σ π α : Type} (a : ModelBasedReflexAgent σ π α) (percept : π) :
    α × ModelBasedReflexAgent σ π α :=
  let newState := update_state a.state a.action percept a.transition_model a.sensor_model
  let r := rule_match newState a.rules
  let act := chosen_action r a.no_op
  (act, { a with state := newState, action := act })

/-- Feed a percept sequence to the agent, collecting the returned actions
and the final agent (the driver loop, lines 128-130). -/
def runAgent {σ π α : Type} (a : ModelBasedReflexAgent σ π α) (percepts : List π) :
    List α × ModelBasedReflexAgent σ π α :=
  match percepts with
  | [] => ([], a)
  | p :: ps =>
      let step := perceive a p
      let rest := runAgent step.2 ps
      (step.1 :: rest.1, rest.2)

/-- Feed a percept sequence, recording after each step the returned action
paired with the agent's belief state at that point. -/
def runTrace {σ π α : Type} (a : ModelBasedReflexAgent σ π α) (percepts : List π) :
    List (α × σ) :=
  match percepts with
  | [] => []
  | p :: ps =>
      let step := perceive a p
      (step.1, step.2.state) :: runTrace step.2 ps

/-- Agent whose collaborators may fail: a raising Python callable is
embedded as a function into `Except ε`. -/
structure ModelBasedReflexAgentE (σ π α ε : Type) where
  transition_model : σ → α → Except ε σ
  sensor_model : π → σ → Except ε σ
  rules : List (Rule σ α)
  state : σ
  action : α
  no_op : α

/-- `update_state` with fallible models: the predict phase runs first; a
failure in either phase aborts the whole update. -/
def update_stateE {σ π α ε : Type} (state : σ) (last_action : α) (percept : π)
    (transition_model : σ → α → Except ε σ) (sensor_model : π → σ → Except ε σ) :
    Except ε σ := do
  let predicted ← transition_model state last_action
  let corrected ← sensor_model percept predicted
  pure corrected

/-- `perceive` with fallible models.  In the source, `self.state = update_state(...)`
evaluates the right-hand side completely before assigning; when the update
raises, the assignment and everything after it never run, so the returned
agent is the unchanged input agent. -/
def perceiveE {σ π α ε : Type} (a : ModelBasedReflexAgentE σ π α ε) (percept : π) :
    Except ε α × ModelBasedReflexAgentE σ π α ε :=
  match update_stateE a.state a.action percept a.transition_model a.sensor_model with
  | Except.error e => (Except.error e, a)
  | Except.ok newState =>
      let r := rule_match newState a.rules
      let act := chosen_action r a.no_op
      (Except.ok act, { a with state := newState, action := act })

/-! ## Vacuum-world instantiation (lines 62-126) -/

/-- A Python dict of dirt flags, `{'A': bool, 'B': bool, ...}`, as an
association list in insertion order. -/
abbrev DirtMap := List (String × Bool)

/-- Python `d.get(k, default)` on a dirt dict. -/
def dictGet (m : DirtMap) (k : String) (d : Bool) : Bool :=
  match m with
  | [] => d
  | (k0, v0) :: rest => if k0 == k then v0 else dictGet rest k d

/-- Python `d[k] = v` on a dirt dict: overwrite in place if the key exists,
append otherwise. -/
def dictSet (m : DirtMap) (k : String) (v : Bool) : DirtMap :=
  match m with
  | [] => [(k, v)]
  | (k0, v0) :: rest => if k0 == k then (k, v) :: rest else (k0, v0) :: dictSet rest k v

/-- The vacuum belief-state dict.  The program only ever reads or writes the
keys `loc` and `dirty`; each is `none` when the key is absent. -/
structure VacState where
  loc : Option String
  dirty : Option DirtMap
deriving DecidableEq

/-- The vacuum percept dict `{'loc': 'A'|'B', 'dirty': bool}` (lines 68-69). -/
structure VacPercept where
  loc : String
  dirty : Bool
deriving DecidableEq

/-- `vacuum_transition_model` (lines 71-80): moving changes the location,
any other action leaves the (shallow-copied) state as it was. -/
def vacuum_transition_model (state : VacState) (last_action : String) : VacState :=
  if last_action == "LEFT" then { state with loc := some "A" }
  else if last_action == "RIGHT" then { state with loc := some "B" }
  else state

/-- `vacuum_sensor_model` (lines 82-96): set the location from the percept
and overwrite the dirt belief at that location with the sensed value,
defaulting a missing dirt dict to `{'A': False, 'B': False}`. -/
def vacuum_sensor_model (percept : VacPercept) (predicted : VacState) : VacState :=
  let loc := percept.loc
  let dirty := predicted.dirty.getD [("A", false), ("B", false)]
  { predicted with
    loc := some loc
    dirty := some (dictSet dirty loc percept.dirty) }

/-- `vacuum_rules` (lines 102-106): dirty here → SUCK; at A → RIGHT;
at B → LEFT.  The first condition is `st.get('dirty', \x7b\x7d).get(st.get('loc'), False) is True`;
Python `d.get(None, False)` is `False` when `loc` is absent. -/
def vacuum_rules : List (Rule VacState String) :=
  [ { condition := fun st =>
        match st.loc with
        | none => false
        | some l => dictGet (st.dirty.getD []) l false
      action := "SUCK" }
  , { condition := fun st => st.loc == some "A", action := "RIGHT" }
  , { condition := fun st => st.loc == some "B", action := "LEFT" } ]

/-- The empty belief state (the Python `{}` default). -/
def emptyVacState : VacState := { loc := none, dirty := none }

/-- A vacuum agent with arbitrary current belief and last action, as wired
by the driver (lines 111-117). -/
def vacuum_agent (s : VacState) (la : String) : ModelBasedReflexAgent VacState VacPercept String :=
  { transition_model := vacuum_transition_model
    sensor_model := vacuum_sensor_model
    rules := vacuum_rules
    state := s
    action := la
    no_op := "NO-OP" }

/-- The driver's initial belief `{'loc': 'A', 'dirty': {'A': True, 'B': True}}`. -/
def demo_initial_state : VacState :=
  { loc := some "A", dirty := some [("A", true), ("B", true)] }

/-- The driver's agent (lines 111-117). -/
def demo_agent : ModelBasedReflexAgent VacState VacPercept String :=
  mkAgent vacuum_transition_model vacuum_sensor_model vacuum_rules
    (some demo_initial_state) emptyVacState "NO-OP"

/-- The driver's percept sequence (lines 120-126). -/
def demo_percepts : List VacPercept :=
  [ { loc := "A", dirty := true }
  , { loc := "A", dirty := false }
  , { loc := "B", dirty := true }
  , { loc := "B", dirty := false }
  , { loc := "A", dirty := false } ]

/-! ## Theorems -/

/-- Claim C1: for every agent and percept, `perceive` replaces the belief
state with `update_state state last_action percept transitionModel sensorModel`,
returns the matched rule's action when a rule matched and the configured
no-op otherwise, and stores the returned action as the new last action. -/
theorem perceive_steps {σ π α : Type} (a : ModelBasedReflexAgent σ π α) (p : π) :
    (perceive a p).2.state = update_state a.state a.action p a.transition_model a.sensor_model ∧
    (perceive a p).1 =
      chosen_action
        (rule_match (update_state a.state a.action p a.transition_model a.sensor_model) a.rules)
        a.no_op ∧
    (perceive a p).2.action = (perceive a p).1 ∧
    (∀ r, rule_match (update_state a.state a.action p a.transition_model a.sensor_model) a.rules =
        some r → (perceive a p).1 = r.action) ∧
    (rule_match (update_state a.state a.action p a.transition_model a.sensor_model) a.rules =
        none → (perceive a p).1 = a.no_op) :=
  ⟨rfl, rfl, rfl,
    fun r hr => by simp [perceive, hr, chosen_action],
    fun hn => by simp [perceive, hn, chosen_action]⟩

/-- Claim C2: `update_state` is exactly the sensor model applied to the
percept and the transition model's prediction: the predict phase runs first
without the percept, the correct phase fuses the percept, and its result is
the whole new belief state. -/
theorem update_state_wiring {σ π α : Type} (state : σ) (last_action : α) (percept : π)
    (transition_model : σ → α → σ) (sensor_model : π → σ → σ) :
    update_state state last_action percept transition_model sensor_model =
      sensor_model percept (transition_model state last_action) := rfl

/-- Claim C3: `rule_match` returns the first rule in list order whose
condition is true on the state (everything before it is false), and returns
`none` exactly when no rule's condition is true. -/
theorem rule_match_first {σ α : Type} (s : σ) (rs : List (Rule σ α)) :
    (rule_match s rs = none ↔ ∀ r ∈ rs, r.condition s = false) ∧
    (∀ r : Rule σ α, rule_match s rs = some r →
      r.condition s = true ∧
        ∃ pre post, rs = pre ++ r :: post ∧ ∀ r0 ∈ pre, r0.condition s = false) := by
  induction rs with
  | nil => simp [rule_match]
  | cons hd tl ih =>
      rcases Bool.eq_false_or_eq_true (hd.condition s) with hc | hc
      · have hmatch : rule_match s (hd :: tl) = some hd := by
          simp [rule_match, hc]
        refine ⟨?_, ?_⟩
        · rw [hmatch]
          constructor
          · intro h
            exact absurd h (by simp)
          · intro hall
            have hfalse := hall hd (List.mem_cons_self _ _)
            simp [hc] at hfalse
        · intro r hr
          rw [hmatch] at hr
          have heq : hd = r := Option.some.inj hr
          subst heq
          exact ⟨hc, [], tl, rfl, fun r0 h0 => absurd h0 (List.not_mem_nil _)⟩
      · have hstep : rule_match s (hd :: tl) = rule_match s tl := by
          simp [rule_match, hc]
        refine ⟨?_, ?_⟩
        · rw [hstep, ih.1]
          constructor
          · intro h r hr
            rcases List.mem_cons.mp hr with h1 | h2
            · subst h1; exact hc
            · exact h r h2
          · intro h r hr
            exact h r (List.mem_cons_of_mem _ hr)
        · intro r hr
          rw [hstep] at hr
          obtain ⟨hcond, pre, post, heq, hpre⟩ := (ih.2) r hr
          refine ⟨hcond, hd :: pre, post, by rw [heq]; rfl, ?_⟩
          intro r0 hr0
          rcases List.mem_cons.mp hr0 with h1 | h2
          · subst h1; exact hc
          · exact hpre r0 h2

/-- Claim C4: on the driver's vacuum agent, the five driver percepts produce
the actions SUCK, RIGHT, SUCK, LEFT, RIGHT with the spec's belief state
after each step. -/
theorem demo_run :
    runTrace demo_agent demo_percepts =
      [ ("SUCK", { loc := some "A", dirty := some [("A", true), ("B", true)] }),
        ("RIGHT", { loc := some "A", dirty := some [("A", false), ("B", true)] }),
        ("SUCK", { loc := some "B", dirty := some [("A", false), ("B", true)] }),
        ("LEFT", { loc := some "B", dirty := some [("A", false), ("B", false)] }),
        ("RIGHT", { loc := some "A", dirty := some [("A", false), ("B", false)] }) ] := by
  decide

/-- Claim C5: first-in-order wins: when both conditions are true on the
state, the list starting with r1 matches r1 and the list with the two
swapped matches r2. -/
theorem rule_match_order {σ α : Type} (s : σ) (r1 r2 : Rule σ α) (rest : List (Rule σ α))
    (h1 : r1.condition s = true) (h2 : r2.condition s = true) :
    rule_match s (r1 :: r2 :: rest) = some r1 ∧
    rule_match s (r2 :: r1 :: rest) = some r2 := by
  constructor
  · simp [rule_match, h1]
  · simp [rule_match, h2]

/-- A rule whose condition always holds, for exercising the tie-break. -/
def wRule1 : Rule VacState String := { condition := fun _ => true, action := "FIRST" }

/-- A second always-true rule with a different action. -/
def wRule2 : Rule VacState String := { condition := fun _ => true, action := "SECOND" }

/-- Witness for claim C5 at two concrete always-true rules. -/
theorem rule_match_order_witness :
    rule_match emptyVacState [wRule1, wRule2] = some wRule1 ∧
    rule_match emptyVacState [wRule2, wRule1] = some wRule2 :=
  rule_match_order emptyVacState wRule1 wRule2 [] rfl rfl

/-- Claim C6: two agents with identical collaborators, rules, belief state,
last action and no-op produce identical action sequences and identical
final belief states on the same percept sequence. -/
theorem run_deterministic {σ π α : Type} (a1 a2 : ModelBasedReflexAgent σ π α)
    (htm : a1.transition_model = a2.transition_model)
    (hsm : a1.sensor_model = a2.sensor_model)
    (hr : a1.rules = a2.rules)
    (hs : a1.state = a2.state)
    (ha : a1.action = a2.action)
    (hn : a1.no_op = a2.no_op)
    (ps : List π) :
    (runAgent a1 ps).1 = (runAgent a2 ps).1 ∧
    (runAgent a1 ps).2.state = (runAgent a2 ps).2.state := by
  have h12 : a1 = a2 := by
    cases a1; cases a2; simp_all
  subst h12
  exact ⟨rfl, rfl⟩

/-- Witness for claim C6 at the driver's agent and percepts. -/
theorem run_deterministic_witness :
    (runAgent demo_agent demo_percepts).1 = (runAgent demo_agent demo_percepts).1 ∧
    (runAgent demo_agent demo_percepts).2.state = (runAgent demo_agent demo_percepts).2.state :=
  run_deterministic demo_agent demo_agent rfl rfl rfl rfl rfl rfl demo_percepts

/-- Claim C7: the vacuum transition model treats the no-op as identity, so
with last action NO-OP the predicted state equals the prior state. -/
theorem vacuum_no_op_identity (s : VacState) : vacuum_transition_model s "NO-OP" = s := rfl

/-- Claim C8: when the transition model fails, or the transition model
succeeds and the sensor model fails, `perceive` propagates that very error
and the agent keeps exactly the fields it had before the call. -/
theorem perceiveE_exception {σ π α ε : Type} (a : ModelBasedReflexAgentE σ π α ε)
    (p : π) (e : ε)
    (h : a.transition_model a.state a.action = Except.error e ∨
         ∃ s1, a.transition_model a.state a.action = Except.ok s1 ∧
           a.sensor_model p s1 = Except.error e) :
    perceiveE a p = (Except.error e, a) := by
  have hupd : update_stateE a.state a.action p a.transition_model a.sensor_model =
      Except.error e := by
    unfold update_stateE
    rcases h with h1 | ⟨s1, h1, h2⟩
    · rw [h1]; rfl
    · rw [h1]
      show (do
        let corrected ← a.sensor_model p s1
        pure corrected : Except ε σ) = Except.error e
      rw [h2]; rfl
  simp [perceiveE, hupd]

/-- A vacuum agent whose transition model always fails. -/
def failAgentE : ModelBasedReflexAgentE VacState VacPercept String String :=
  { transition_model := fun _ _ => Except.error "transition failure"
    sensor_model := fun _ s => Except.ok s
    rules := vacuum_rules
    state := demo_initial_state
    action := "NO-OP"
    no_op := "NO-OP" }

/-- Witness for claim C8 at a concrete failing transition model. -/
theorem perceiveE_exception_witness :
    perceiveE failAgentE { loc := "A", dirty := true } =
      (Except.error "transition failure", failAgentE) :=
  perceiveE_exception failAgentE { loc := "A", dirty := true } "transition failure" (Or.inl rfl)

/-- Claim C9: `perceive` changes only `state` and `action` (the last
action): the transition model, sensor model, rules and no-op of the agent
are unchanged. -/
theorem perceive_frame {σ π α : Type} (a : ModelBasedReflexAgent σ π α) (p : π) :
    (perceive a p).2.transition_model = a.transition_model ∧
    (perceive a p).2.sensor_model = a.sensor_model ∧
    (perceive a p).2.rules = a.rules ∧
    (perceive a p).2.no_op = a.no_op := ⟨rfl, rfl, rfl, rfl⟩

/-- On a belief state located at A or B, the vacuum rules select SUCK,
RIGHT or LEFT. -/
lemma vacuum_action_cases (ns : VacState) (hl : ns.loc = some "A" ∨ ns.loc = some "B") :
    chosen_action (rule_match ns vacuum_rules) "NO-OP" = "SUCK" ∨
    chosen_action (rule_match ns vacuum_rules) "NO-OP" = "RIGHT" ∨
    chosen_action (rule_match ns vacuum_rules) "NO-OP" = "LEFT" := by
  obtain ⟨l, d⟩ := ns
  rcases hl with h | h
  · have hl2 : l = some "A" := h
    subst hl2
    cases hb : dictGet (d.getD []) "A" false
    · right; left
      simp [rule_match, vacuum_rules, hb, chosen_action]
    · left
      simp [rule_match, vacuum_rules, hb, chosen_action]
  · have hl2 : l = some "B" := h
    subst hl2
    cases hb : dictGet (d.getD []) "B" false
    · right; right
      simp [rule_match, vacuum_rules, hb, chosen_action]
    · left
      simp [rule_match, vacuum_rules, hb, chosen_action]

/-- Claim C10: from any prior belief state and last action, a vacuum agent
fed a percept located at A or B returns SUCK, RIGHT or LEFT and never the
no-op, because the sensor model forces the new state's location to the
percept's location. -/
theorem vacuum_perceive_no_noop (s : VacState) (la : String) (p : VacPercept)
    (h : p.loc = "A" ∨ p.loc = "B") :
    ((perceive (vacuum_agent s la) p).1 = "SUCK" ∨
     (perceive (vacuum_agent s la) p).1 = "RIGHT" ∨
     (perceive (vacuum_agent s la) p).1 = "LEFT") ∧
    (perceive (vacuum_agent s la) p).1 ≠ "NO-OP" := by
  have hkey : (perceive (vacuum_agent s la) p).1 =
      chosen_action
        (rule_match (vacuum_sensor_model p (vacuum_transition_model s la)) vacuum_rules)
        "NO-OP" := rfl
  have hloc : (vacuum_sensor_model p (vacuum_transition_model s la)).loc = some p.loc := rfl
  have hl : (vacuum_sensor_model p (vacuum_transition_model s la)).loc = some "A" ∨
      (vacuum_sensor_model p (vacuum_transition_model s la)).loc = some "B" := by
    rcases h with h | h
    · left; rw [hloc, h]
    · right; rw [hloc, h]
  have hcases := vacuum_action_cases (vacuum_sensor_model p (vacuum_transition_model s la)) hl
  rw [hkey]
  refine ⟨hcases, ?_⟩
  rcases hcases with h1 | h1 | h1 <;> rw [h1] <;> decide

/-- Witness for claim C10 at the empty prior belief, last action NO-OP and
the percept at A reporting dirt. -/
theorem vacuum_perceive_no_noop_witness :
    ((perceive (vacuum_agent emptyVacState "NO-OP") { loc := "A", dirty := true }).1 = "SUCK" ∨
     (perceive (vacuum_agent emptyVacState "NO-OP") { loc := "A", dirty := true }).1 = "RIGHT" ∨
     (perceive (vacuum_agent emptyVacState "NO-OP") { loc := "A", dirty := true }).1 = "LEFT") ∧
    (perceive (vacuum_agent emptyVacState "NO-OP") { loc := "A", dirty := true }).1 ≠ "NO-OP" :=
  vacuum_perceive_no_noop emptyVacState "NO-OP" { loc := "A", dirty := true } (Or.inl rfl)

end ReflexAgent
